import Mathlib

/-!
# Verification of the financial-analysis recommendation engine

This file gives a shallow embedding, in Lean 4, of the scoring, consensus and
comparison logic of the repository (sources: `financial_tools.py`,
`agentic-rag.py`, `coinmarketcap_api.py`, `tradingview_api.py`) and proves or
refutes the frozen specification claims about it.

Modelling conventions:
* Python floats are modelled as `ℚ`; `round` is Mathlib's `round`
  (half-up at exact ties, where Python uses half-even; no statement below
  depends on the behaviour at an exact tie).
* Python values that can be "a dict or an error string" are modelled with
  `Except String _` or small tagged inductive types.
* `risk_tolerance.lower() == "low" / "high" / else` dispatch is modelled by the
  inductive type `RiskTol` (any other string behaves as `moderate`).
-/

namespace FinTools

/-- Risk-tolerance parameter: the code tests `risk_tolerance.lower()` against
`"low"` and `"high"`, treating anything else as moderate. -/
inductive RiskTol where
  | low
  | moderate
  | high
deriving DecidableEq, Repr

/-- One entry of the `tech_signals` / `fund_signals` lists built by
`generate_investment_advice` and `generate_crypto_investment_advice`:
a dict `{"indicator": ..., "signal": ..., "weight": ...}`.  Only the
`signal` string and the `weight` participate in scoring. -/
structure TSignal where
  signal : String
  weight : ℚ
deriving DecidableEq, Repr

/-- The signed contribution of one signal to the score: the loop does
`tech_score += weight` for `"Bullish"`, `-= weight` for `"Bearish"`,
and nothing otherwise (`financial_tools.py` lines 524-539 and 1094-1101). -/
def signalContribution (s : TSignal) : ℚ :=
  if s.signal = "Bullish" then s.weight
  else if s.signal = "Bearish" then -s.weight
  else 0

/-- `tech_score` / `fund_score`: the sum of signed weight contributions
accumulated by the scoring loop. -/
def signalScore : List TSignal → ℚ
  | [] => 0
  | s :: rest => signalContribution s + signalScore rest

/-- `tech_weight_sum` / `fund_weight_sum`: the sum of all weights (the loop
adds `signal["weight"]` for every signal, whatever its direction). -/
def weightSum : List TSignal → ℚ
  | [] => 0
  | s :: rest => s.weight + weightSum rest

/-- `tech_normalized` / `fund_normalized`:
`0 if weight_sum == 0 else (score / weight_sum) * 10`
(`financial_tools.py` lines 538-539 and 1103-1104). -/
def normalizedScore (l : List TSignal) : ℚ :=
  if weightSum l = 0 then 0 else signalScore l / weightSum l * 10

/-- Technical/fundamental blending weights for equities
(`financial_tools.py` lines 542-549): low → (0.3, 0.7), high → (0.7, 0.3),
otherwise (0.5, 0.5). -/
def equityWeights : RiskTol → ℚ × ℚ
  | .low => (3/10, 7/10)
  | .high => (7/10, 3/10)
  | .moderate => (1/2, 1/2)

/-- `combined_score` for equities:
`tech_normalized * tech_weight + fund_normalized * fund_weight`
(`financial_tools.py` line 551). -/
def combinedScoreEq (techNorm fundNorm : ℚ) (r : RiskTol) : ℚ :=
  techNorm * (equityWeights r).1 + fundNorm * (equityWeights r).2

/-- The recommendation-label step function shared verbatim by
`generate_investment_advice` (lines 554-569) and
`generate_crypto_investment_advice` (lines 1163-1178):
`>6` Strong Buy, `>3` Buy, `>0` Mild Buy, `>-3` Hold, `>-6` Sell,
else Strong Sell. -/
def recommendationLabel (c : ℚ) : String :=
  if c > 6 then "Strong Buy"
  else if c > 3 then "Buy"
  else if c > 0 then "Mild Buy"
  else if c > -3 then "Hold"
  else if c > -6 then "Sell"
  else "Strong Sell"

/-- Rank of a recommendation label from most bearish (0) to most bullish (5);
used to state monotonicity of the step function. -/
def labelRank : String → ℕ
  | "Strong Sell" => 0
  | "Sell" => 1
  | "Hold" => 2
  | "Mild Buy" => 3
  | "Buy" => 4
  | "Strong Buy" => 5
  | _ => 0

/-- `confidence = abs(combined_score) / 10`, and the reported
`confidence_score = round(confidence * 100)` (`financial_tools.py`
lines 553 and 675 / 1165 and 1284). -/
def confidenceScore (combined : ℚ) : ℤ :=
  round (|combined| / 10 * 100)

/-- Technical weight for the crypto scorer
(`financial_tools.py` lines 1107-1112): low → 0.4, high → 1.0, else 0.7. -/
def cryptoTechWeight : RiskTol → ℚ
  | .low => 4/10
  | .high => 1
  | .moderate => 7/10

/-- Bitcoin-trend adjustment (`financial_tools.py` lines 1117-1131):
`+2` when the BTC 24h change exceeds 5, `+1` above 2, `-2` below -5,
`-1` below -2, else 0. -/
def marketAdj (btcTrend : ℚ) : ℚ :=
  if btcTrend > 5 then 2
  else if btcTrend > 2 then 1
  else if btcTrend < -5 then -2
  else if btcTrend < -2 then -1
  else 0

/-- BTC-comparison adjustment (`financial_tools.py` lines 1134-1141):
`+1` when outperforming Bitcoin, `-0.5` otherwise; `none` models the
case where `btc_comparison` is absent from the analysis. -/
def btcCompAdj : Option Bool → ℚ
  | none => 0
  | some true => 1
  | some false => -(1/2)

/-- Volatility adjustment (`financial_tools.py` lines 1146-1157):
`-2` for low risk tolerance with annualized volatility above 70%,
`+1` for high risk tolerance with volatility above 70%, else 0. -/
def volAdj (r : RiskTol) (volatility : ℚ) : ℚ :=
  if r = .low ∧ volatility > 70 then -2
  else if r = .high ∧ volatility > 70 then 1
  else 0

/-- `combined_score` for the crypto scorer: `tech_normalized * tech_weight`,
then the Bitcoin market/comparison adjustments (skipped entirely when the
market fetch fails, modelled by `btcTrend = none`), then the volatility
adjustment (`financial_tools.py` lines 1114-1157). -/
def combinedScoreCrypto (techNorm : ℚ) (r : RiskTol) (btcTrend : Option ℚ)
    (outperformingBtc : Option Bool) (volatility : ℚ) : ℚ :=
  techNorm * cryptoTechWeight r +
    (match btcTrend with
     | none => 0
     | some t => marketAdj t + btcCompAdj outperformingBtc) +
    volAdj r volatility

/-- Label returned by `generate_investment_advice` as a function of the
normalized technical/fundamental scores and the risk tolerance. -/
def equityRecommendation (techNorm fundNorm : ℚ) (r : RiskTol) : String :=
  recommendationLabel (combinedScoreEq techNorm fundNorm r)

/-- Label returned by `generate_crypto_investment_advice` as a function of
its score inputs. -/
def cryptoRecommendation (techNorm : ℚ) (r : RiskTol) (btcTrend : Option ℚ)
    (outperformingBtc : Option Bool) (volatility : ℚ) : String :=
  recommendationLabel (combinedScoreCrypto techNorm r btcTrend outperformingBtc volatility)

/-! ## Potential upside / downside (`financial_tools.py` lines 585-620 equities,
lines 1192-1226 crypto)

`volatility` below is the annualized standard deviation of daily returns as a
fraction for equities (`daily_returns.std() * sqrt(252)`) and
`volatility_annual / 100` for crypto.  Both functions first clamp the
percentage downside into its asset-class bounds and only then apply the
risk-tolerance multiplier. -/

/-- `volatility_factor = min(max(volatility, 0.15), 0.50)` for equities. -/
def volatilityFactorEq (volatility : ℚ) : ℚ :=
  min (max volatility (15/100)) (50/100)

/-- Equity `potential_downside` before the percentage clamp:
`-(base_return - score_adjustment * volatility_factor * 2)` with
`base_return = 0.10` and `score_adjustment = combined_score / 10`. -/
def rawDownsideEq (combined volatility : ℚ) : ℚ :=
  -(10/100 - combined / 10 * volatilityFactorEq volatility * 2)

/-- Equity `potential_downside` as returned (before `round(.,1)`):
`min(max(raw * 100, 2), 50)`, then `*1.2` for low risk tolerance and
`*0.8` for high. -/
def potentialDownsideEq (combined volatility : ℚ) (r : RiskTol) : ℚ :=
  let d := min (max (rawDownsideEq combined volatility * 100) 2) 50
  match r with
  | .low => d * (12/10)
  | .high => d * (8/10)
  | .moderate => d

/-- `volatility_factor = min(max(volatility, 0.3), 1.0)` for crypto. -/
def volatilityFactorCrypto (volatility : ℚ) : ℚ :=
  min (max volatility (3/10)) 1

/-- Crypto `potential_downside` before the percentage clamp:
`-(base_return - score_adjustment * volatility_factor * 3)` with
`base_return = 0.15`. -/
def rawDownsideCrypto (combined volatility : ℚ) : ℚ :=
  -(15/100 - combined / 10 * volatilityFactorCrypto volatility * 3)

/-- Crypto `potential_downside` as returned (before `round(.,1)`):
`min(max(raw * 100, 5), 90)`, then `*1.3` for low risk tolerance and
`*0.7` for high. -/
def potentialDownsideCrypto (combined volatility : ℚ) (r : RiskTol) : ℚ :=
  let d := min (max (rawDownsideCrypto combined volatility * 100) 5) 90
  match r with
  | .low => d * (13/10)
  | .high => d * (7/10)
  | .moderate => d

/-- Python's `round(x, 1)` applied to the downside fields before they are
placed into the advice dict. -/
def roundTo1 (x : ℚ) : ℚ :=
  round (x * 10) / 10

/-! ## RSI (`financial_tools.py` lines 13-20)

```
delta = data.diff()
gain = delta.where(delta > 0, 0).rolling(window=window).mean()
loss = -delta.where(delta < 0, 0).rolling(window=window).mean()
rs = gain / loss
return 100 - (100 / (1 + rs))
```

The price series is a list of closes; `delta` at index `j ≥ 1` is
`p[j] - p[j-1]` (NaN at `j = 0`), so the rolling means exist exactly for
indices `i ≥ window`.  IEEE float arithmetic on the always-nonnegative
`gain`/`loss` gives `rs = +inf` (hence RSI `= 100`) when `loss = 0 < gain`,
and `rs = NaN` (hence RSI `= NaN`, modelled `none`) when
`gain = loss = 0`. -/

/-- `delta[j] = close[j] - close[j-1]` (out-of-range indices never arise in
the guarded uses below). -/
def priceDelta (prices : List ℚ) (j : ℕ) : ℚ :=
  prices.getD j 0 - prices.getD (j - 1) 0

/-- Rolling mean of the positive parts of the last `w` deltas ending at
index `i` (the value of `gain` at index `i`). -/
def rsiGain (prices : List ℚ) (w i : ℕ) : ℚ :=
  (∑ k ∈ Finset.range w, max (priceDelta prices (i - k)) 0) / w

/-- Rolling mean of the magnitudes of the negative parts of the last `w`
deltas ending at index `i` (the value of `loss` at index `i`). -/
def rsiLoss (prices : List ℚ) (w i : ℕ) : ℚ :=
  (∑ k ∈ Finset.range w, max (-priceDelta prices (i - k)) 0) / w

/-- RSI at index `i` with window `w`: `none` during warm-up (`i < w`), out of
range, or when `gain = loss = 0` (the float pipeline produces NaN there);
otherwise the value of `100 - 100 / (1 + gain/loss)`, with the `loss = 0`,
`gain > 0` case evaluating to `100` exactly (`100 - 100/(1 + inf)`). -/
def rsiAt (prices : List ℚ) (w i : ℕ) : Option ℚ :=
  if i < w ∨ prices.length ≤ i then none
  else if rsiLoss prices w i ≠ 0 then
    some (100 - 100 / (1 + rsiGain prices w i / rsiLoss prices w i))
  else if rsiGain prices w i ≠ 0 then some 100
  else none

end FinTools

namespace CmcApi

/-- The `risk_profiles` dict computed by `get_cmc_investment_recommendation`
(`coinmarketcap_api.py`): three booleans consulted by the label dispatch. -/
structure RiskProfiles where
  low : Bool
  moderate : Bool
  high : Bool
deriving DecidableEq, Repr

/-- Label and confidence chosen by `get_cmc_investment_recommendation`
(`coinmarketcap_api.py` lines 557-628) from the risk tolerance string, the
technical score and the risk profiles.  This is the only recommender in the
repository that can emit `"Mild Sell"`. -/
def cmcRecommendation (riskTolerance : String) (technicalScore : ℚ)
    (rp : RiskProfiles) : String × ℕ :=
  if riskTolerance = "low" then
    if technicalScore ≥ 6 ∧ rp.low then ("Strong Buy", 90)
    else if technicalScore ≥ 4 ∧ rp.low then ("Buy", 70)
    else if technicalScore ≤ -6 then ("Strong Sell", 85)
    else if technicalScore ≤ -4 then ("Sell", 65)
    else if technicalScore ≥ 2 ∧ rp.moderate then ("Mild Buy", 55)
    else if technicalScore ≤ -2 then ("Mild Sell", 55)
    else ("Hold", 60)
  else if riskTolerance = "moderate" then
    if technicalScore ≥ 5 then ("Strong Buy", 85)
    else if technicalScore ≥ 3 then ("Buy", 70)
    else if technicalScore ≤ -5 then ("Strong Sell", 80)
    else if technicalScore ≤ -3 then ("Sell", 65)
    else if technicalScore ≥ 1 then ("Mild Buy", 55)
    else if technicalScore ≤ -1 then ("Mild Sell", 55)
    else ("Hold", 60)
  else
    if technicalScore ≥ 4 then ("Strong Buy", 80)
    else if technicalScore ≥ 2 then ("Buy", 65)
    else if technicalScore ≤ -4 then ("Strong Sell", 75)
    else if technicalScore ≤ -2 then ("Sell", 60)
    else if technicalScore ≥ 1 then ("Mild Buy", 55)
    else if technicalScore ≤ -1 then ("Mild Sell", 55)
    else ("Hold", 60)

end CmcApi

namespace AgenticRag

/-- Substring test on character lists, used to model Python's
`"Buy" in recommendation_label`. -/
def containsSub (needle : List Char) : List Char → Bool
  | [] => needle.isEmpty
  | c :: rest => needle.isPrefixOf (c :: rest) || containsSub needle rest

/-- `"Buy" in r` for a recommendation label `r`. -/
def containsBuy (r : String) : Bool :=
  containsSub "Buy".data r.data

/-- `"Sell" in r` for a recommendation label `r`. -/
def containsSell (r : String) : Bool :=
  containsSub "Sell".data r.data

/-- `buy_count = sum(1 for r in recommendations if "Buy" in r)`
(`agentic-rag.py` line 330). -/
def buyCount (recs : List String) : ℕ :=
  recs.countP containsBuy

/-- `sell_count = sum(1 for r in recommendations if "Sell" in r)`
(`agentic-rag.py` line 331). -/
def sellCount (recs : List String) : ℕ :=
  recs.countP containsSell

/-- The consensus recommendation string computed by
`get_buy_sell_recommendation` (`agentic-rag.py` lines 333-340), where
`sources_available` equals the length of the `recommendations` list. -/
def consensusLabel (recs : List String) : String :=
  if 2 ≤ buyCount recs ∧ sellCount recs < buyCount recs then
    if buyCount recs = recs.length then "Strong consensus to Buy"
    else "Moderate consensus to Buy"
  else if 2 ≤ sellCount recs ∧ buyCount recs < sellCount recs then
    if sellCount recs = recs.length then "Strong consensus to Sell"
    else "Moderate consensus to Sell"
  else "Mixed signals across sources"

/-- The `agreement_level` field (`agentic-rag.py` line 345). -/
def agreementLevel (recs : List String) : String :=
  if buyCount recs = recs.length ∨ sellCount recs = recs.length then "High"
  else if sellCount recs < buyCount recs ∨ buyCount recs < sellCount recs then "Moderate"
  else "Low"

/-- Every recommendation label that can reach the consensus computation:
the CoinMarketCap labels, the TradingView overall sentiments, the Yahoo
scorer labels, and the `"Neutral"` defaults used by `.get(..., "Neutral")`. -/
def labelAlphabet : List String :=
  ["Strong Buy", "Buy", "Mild Buy", "Hold", "Mild Sell", "Sell", "Strong Sell", "Neutral"]

/-- Classification of a provider-call result by the membership tests the
fallback chain performs: a dict without an `"error"` key, a dict with one,
or a non-dict value (e.g. an error string). -/
inductive ProviderOutcome where
  | dictOk
  | dictErr
  | nonDict
deriving DecidableEq, Repr

/-- Result of `get_buy_sell_recommendation`: a recommendation object built
from one of the three providers, or the tagged error dict. -/
inductive BuySellResult where
  | fromCMC
  | fromTradingView
  | fromYahoo
  | errorResult (msg : String)
deriving DecidableEq, Repr

/-- The provider fallback chain of `get_buy_sell_recommendation`
(`agentic-rag.py` lines 286-393): CoinMarketCap is used when it returns a
dict without `"error"`; otherwise TradingView under the same test; otherwise
the Yahoo-style advice whenever it is a dict at all
(`isinstance(yf_analysis, dict)`); otherwise the tagged error dict
`{"error": f"Unable to generate buy/sell recommendation for {symbol} from any source"}`. -/
def getBuySellRecommendation (symbol : String) (cmc tv yf : ProviderOutcome) :
    BuySellResult :=
  if cmc = .dictOk then .fromCMC
  else if tv = .dictOk then .fromTradingView
  else if yf = .dictOk ∨ yf = .dictErr then .fromYahoo
  else .errorResult
    ("Unable to generate buy/sell recommendation for " ++ symbol ++ " from any source")

end AgenticRag

namespace FinTools

/-! ## The `price_vs_ma50` / `price_vs_ma200` expression
(`financial_tools.py` lines 278-279 in `extract_financial_insights` and
965-966 in `analyze_crypto`)

```
"Above" if current_price > ma50_latest else "Below" if ma50_latest is not None else "Unknown"
```

Python parses this as
`"Above" if cp > ma else ("Below" if ma is not None else "Unknown")`, so the
comparison `current_price > ma50_latest` is evaluated first.  When the moving
average is undefined (`ma50_latest is None`), `float > None` raises
`TypeError`, which the enclosing `try` of the whole analysis converts into an
error-string return; the `"Unknown"` arm is unreachable. -/

/-- The price-vs-MA ternary expression, with the `TypeError` raised by
`float > None` modelled as `Except.error`. -/
def priceVsMA (currentPrice : ℚ) (maLatest : Option ℚ) : Except String String :=
  match maLatest with
  | some m => .ok (if currentPrice > m then "Above" else "Below")
  | none => .error "TypeError: unsupported comparison between float and NoneType"

/-- The two `price_vs_*` fields of the analysis dict, under the enclosing
`try ... except` of `extract_financial_insights` / `analyze_crypto`, which
turns any exception into the string
`"Error performing comprehensive analysis for {ticker}: {e}"`. -/
def insightsMAFields (ticker : String) (currentPrice : ℚ)
    (ma50 ma200 : Option ℚ) : Except String (String × String) :=
  match priceVsMA currentPrice ma50 with
  | .error e => .error ("Error performing comprehensive analysis for " ++ ticker ++ ": " ++ e)
  | .ok v50 =>
    match priceVsMA currentPrice ma200 with
    | .error e => .error ("Error performing comprehensive analysis for " ++ ticker ++ ": " ++ e)
    | .ok v200 => .ok (v50, v200)

/-! ## `compare_cryptos` (`financial_tools.py` lines 1312-1433)

The per-symbol loop stores each failure as `results[symbol] = error_string`
and each success into `performance_data` / `volatility_data` /
`indicator_data`; after the loop the local variable `results` is rebound to a
fresh dict holding only the aggregates, so the stored error notes are
discarded and never returned. -/

/-- The fields of an `analyze_crypto` result that `compare_cryptos` reads. -/
structure CryptoSnapshot where
  name : String
  currentPrice : ℚ
  periodChangePct : ℚ
  volatilityAnnual : ℚ
  rsi : Option ℚ
  ma50 : Option ℚ
  ma200 : Option ℚ
  priceVsMa50 : String
  priceVsMa200 : String
deriving DecidableEq, Repr

/-- Entry of `performance_data`. -/
structure PerfEntry where
  name : String
  currentPrice : ℚ
  periodChangePct : ℚ
  vsBtcChange : ℚ
  outperformingBtc : Bool
deriving DecidableEq, Repr

/-- Entry of `volatility_data`. -/
structure VolEntry where
  name : String
  volatilityAnnual : ℚ
  riskLevel : String
deriving DecidableEq, Repr

/-- Entry of `indicator_data`. -/
structure IndEntry where
  name : String
  rsi : Option ℚ
  ma50 : Option ℚ
  ma200 : Option ℚ
  priceVsMa50 : String
  priceVsMa200 : String
  trend : String
deriving DecidableEq, Repr

/-- The value `compare_cryptos` actually returns: the aggregate dict built
after the loop.  It has no field for per-symbol error notes. -/
structure CompareResult where
  period : String
  btcPerformance : ℚ
  performanceData : List (String × PerfEntry)
  volatilityData : List (String × VolEntry)
  indicatorData : List (String × IndEntry)
  performanceRanking : List String
  volatilityRanking : List String
deriving DecidableEq, Repr

/-- Risk-level bucketing by annualized volatility used in `compare_cryptos`
(and `generate_crypto_investment_advice`). -/
def riskLevelOf (v : ℚ) : String :=
  if v > 100 then "Very High"
  else if v > 70 then "High"
  else if v > 40 then "Moderate"
  else "Low"

/-- The `trend` field of `indicator_data`. -/
def trendOf (pVs50 pVs200 : String) : String :=
  if pVs50 = "Above" ∧ pVs200 = "Above" then "Bullish"
  else if pVs50 = "Below" ∧ pVs200 = "Below" then "Bearish"
  else "Mixed"

/-- One pass of the `compare_cryptos` per-symbol loop.  The first component
is the pre-rebinding `results` dict, which accumulates the inline error
notes for failed symbols; the other three are the aggregate maps for the
successful symbols, all in input order. -/
def compareLoop (btcChange : ℚ) :
    List (String × Except String CryptoSnapshot) →
    List (String × String) × List (String × PerfEntry) ×
      List (String × VolEntry) × List (String × IndEntry)
  | [] => ([], [], [], [])
  | (symbol, outcome) :: rest =>
    let (errs, perf, vol, ind) := compareLoop btcChange rest
    match outcome with
    | .error msg => ((symbol, msg) :: errs, perf, vol, ind)
    | .ok a =>
      (errs,
       (symbol,
        { name := a.name
          currentPrice := a.currentPrice
          periodChangePct := a.periodChangePct
          vsBtcChange := a.periodChangePct - btcChange
          outperformingBtc := a.periodChangePct > btcChange }) :: perf,
       (symbol,
        { name := a.name
          volatilityAnnual := a.volatilityAnnual
          riskLevel := riskLevelOf a.volatilityAnnual }) :: vol,
       (symbol,
        { name := a.name
          rsi := a.rsi
          ma50 := a.ma50
          ma200 := a.ma200
          priceVsMa50 := a.priceVsMa50
          priceVsMa200 := a.priceVsMa200
          trend := trendOf a.priceVsMa50 a.priceVsMa200 }) :: ind)

/-- Stable insertion of one element into a list sorted by `le`. -/
def insertBy {α : Type} (le : α → α → Bool) (x : α) : List α → List α
  | [] => [x]
  | y :: ys => if le x y then x :: y :: ys else y :: insertBy le x ys

/-- Stable sort by `le` (models Python's `sorted`). -/
def sortBy {α : Type} (le : α → α → Bool) (l : List α) : List α :=
  l.foldr (insertBy le) []

/-- `compare_cryptos` on pre-fetched per-symbol outcomes: runs the loop,
then rebinds `results` to the aggregate dict — the error notes from the
first component of `compareLoop` do not appear in the returned value. -/
def compareCryptos (period : String) (btcChange : ℚ)
    (inputs : List (String × Except String CryptoSnapshot)) : CompareResult :=
  let (_, perf, vol, ind) := compareLoop btcChange inputs
  { period := period
    btcPerformance := btcChange
    performanceData := perf
    volatilityData := vol
    indicatorData := ind
    performanceRanking :=
      sortBy (fun s t =>
          (perf.lookup t).elim true fun et =>
            (perf.lookup s).elim true fun es => es.periodChangePct ≥ et.periodChangePct)
        (perf.map Prod.fst)
    volatilityRanking :=
      sortBy (fun s t =>
          (vol.lookup t).elim true fun et =>
            (vol.lookup s).elim true fun es => es.volatilityAnnual ≤ et.volatilityAnnual)
        (vol.map Prod.fst) }

/-- A successful `analyze_crypto` result used to exercise `compareCryptos`
on a mixed success/failure input. -/
def btcSnapshot : CryptoSnapshot :=
  { name := "Bitcoin"
    currentPrice := 60000
    periodChangePct := 50
    volatilityAnnual := 45
    rsi := some 55
    ma50 := some 55000
    ma200 := some 50000
    priceVsMa50 := "Above"
    priceVsMa200 := "Above" }

/-- A two-symbol comparison input in which the first symbol succeeds and the
second fails with a value-level error string. -/
def mixedCompareInputs : List (String × Except String CryptoSnapshot) :=
  [("BTC-USD", .ok btcSnapshot),
   ("FAKE-USD", .error "Error analyzing FAKE-USD: no data")]

end FinTools

/-! ## Helper lemmas -/

open FinTools AgenticRag CmcApi

lemma labelRank_recommendationLabel (c : ℚ) :
    labelRank (recommendationLabel c) =
      if c > 6 then 5 else if c > 3 then 4 else if c > 0 then 3
      else if c > -3 then 2 else if c > -6 then 1 else 0 := by
  unfold recommendationLabel
  split_ifs <;> rfl

lemma recommendationLabel_cases (c : ℚ) :
    (recommendationLabel c = "Strong Buy" ↔ 6 < c) ∧
    (recommendationLabel c = "Buy" ↔ 3 < c ∧ c ≤ 6) ∧
    (recommendationLabel c = "Mild Buy" ↔ 0 < c ∧ c ≤ 3) ∧
    (recommendationLabel c = "Hold" ↔ -3 < c ∧ c ≤ 0) ∧
    (recommendationLabel c = "Sell" ↔ -6 < c ∧ c ≤ -3) ∧
    (recommendationLabel c = "Strong Sell" ↔ c ≤ -6) := by
  unfold recommendationLabel
  split_ifs with h1 h2 h3 h4 h5 <;>
    refine ⟨?_, ?_, ?_, ?_, ?_, ?_⟩ <;>
    constructor <;>
    intro hx <;>
    first
      | rfl
      | exact absurd hx (by decide)
      | linarith
      | exact ⟨by linarith, by linarith⟩

lemma recommendationLabel_allowed (c : ℚ) :
    recommendationLabel c ∈
        (["Strong Buy", "Buy", "Mild Buy", "Hold", "Sell", "Strong Sell"] : List String) ∧
    recommendationLabel c ≠ "Mild Sell" := by
  unfold recommendationLabel
  split_ifs <;> exact ⟨by decide, by decide⟩

lemma weightSum_nonneg : ∀ l : List TSignal, (∀ s ∈ l, 0 ≤ s.weight) → 0 ≤ weightSum l
  | [], _ => le_refl 0
  | s :: rest, h => by
      have hs : 0 ≤ s.weight := h s (List.mem_cons_self s rest)
      have ih := weightSum_nonneg rest fun x hx => h x (List.mem_cons_of_mem s hx)
      unfold weightSum
      linarith

lemma signalScore_le_weightSum :
    ∀ l : List TSignal, (∀ s ∈ l, 0 ≤ s.weight) → signalScore l ≤ weightSum l
  | [], _ => le_refl 0
  | s :: rest, h => by
      have hs : 0 ≤ s.weight := h s (List.mem_cons_self s rest)
      have ih := signalScore_le_weightSum rest fun x hx => h x (List.mem_cons_of_mem s hx)
      unfold signalScore weightSum signalContribution
      split_ifs <;> linarith

lemma neg_weightSum_le_signalScore :
    ∀ l : List TSignal, (∀ s ∈ l, 0 ≤ s.weight) → -weightSum l ≤ signalScore l
  | [], _ => le_refl 0
  | s :: rest, h => by
      have hs : 0 ≤ s.weight := h s (List.mem_cons_self s rest)
      have ih := neg_weightSum_le_signalScore rest fun x hx => h x (List.mem_cons_of_mem s hx)
      unfold signalScore weightSum signalContribution
      split_ifs <;> linarith

/-! ## Claim theorems -/

/-- C8: the recommendation label produced by the scorer is the step function
`>6` Strong Buy, `>3` Buy, `>0` Mild Buy, `>-3` Hold, `>-6` Sell, else
Strong Sell; it is monotone in the combined score, and the six label regions
are exactly the non-overlapping intervals cut at `{-6, -3, 0, 3, 6}`. -/
theorem claim8_label_step_function :
    (∀ s t : ℚ, s ≤ t →
        labelRank (recommendationLabel s) ≤ labelRank (recommendationLabel t)) ∧
    (∀ c : ℚ,
        (recommendationLabel c = "Strong Buy" ↔ 6 < c) ∧
        (recommendationLabel c = "Buy" ↔ 3 < c ∧ c ≤ 6) ∧
        (recommendationLabel c = "Mild Buy" ↔ 0 < c ∧ c ≤ 3) ∧
        (recommendationLabel c = "Hold" ↔ -3 < c ∧ c ≤ 0) ∧
        (recommendationLabel c = "Sell" ↔ -6 < c ∧ c ≤ -3) ∧
        (recommendationLabel c = "Strong Sell" ↔ c ≤ -6)) := by
  constructor
  · intro s t hst
    rw [labelRank_recommendationLabel, labelRank_recommendationLabel]
    split_ifs <;> linarith
  · exact recommendationLabel_cases

/-- Witness for C8 at concrete scores `-7 ≤ 7`. -/
theorem claim8_witness :
    labelRank (recommendationLabel (-7)) ≤ labelRank (recommendationLabel 7) :=
  claim8_label_step_function.1 (-7) 7 (by norm_num)

/-- C10: for every input the labels of `generate_investment_advice` and
`generate_crypto_investment_advice` lie in
{Strong Buy, Buy, Mild Buy, Hold, Sell, Strong Sell} and are never
`"Mild Sell"`, while the CoinMarketCap recommender does emit `"Mild Sell"`
(here at moderate risk tolerance with technical score `-1`). -/
theorem claim10_no_mild_sell :
    (∀ tn fn : ℚ, ∀ r : RiskTol,
        equityRecommendation tn fn r ∈
            (["Strong Buy", "Buy", "Mild Buy", "Hold", "Sell", "Strong Sell"] : List String) ∧
        equityRecommendation tn fn r ≠ "Mild Sell") ∧
    (∀ tn vol : ℚ, ∀ r : RiskTol, ∀ bt : Option ℚ, ∀ op : Option Bool,
        cryptoRecommendation tn r bt op vol ∈
            (["Strong Buy", "Buy", "Mild Buy", "Hold", "Sell", "Strong Sell"] : List String) ∧
        cryptoRecommendation tn r bt op vol ≠ "Mild Sell") ∧
    cmcRecommendation "moderate" (-1) ⟨true, true, true⟩ = ("Mild Sell", 55) := by
  refine ⟨?_, ?_, ?_⟩
  · intro tn fn r
    exact recommendationLabel_allowed (combinedScoreEq tn fn r)
  · intro tn vol r bt op
    exact recommendationLabel_allowed (combinedScoreCrypto tn r bt op vol)
  · decide

/-- C9: for any signal list with non-negative weights the normalized score
lies in `[-10, 10]`, and it is exactly `0` for the empty list or when the
weights sum to `0`. -/
theorem claim9_normalized_score (l : List TSignal) (h : ∀ s ∈ l, 0 ≤ s.weight) :
    (-10 ≤ normalizedScore l ∧ normalizedScore l ≤ 10) ∧
    (l = [] → normalizedScore l = 0) ∧
    (weightSum l = 0 → normalizedScore l = 0) := by
  refine ⟨?_, ?_, ?_⟩
  · by_cases hw : weightSum l = 0
    · rw [normalizedScore, if_pos hw]
      norm_num
    · have h0 : 0 ≤ weightSum l := weightSum_nonneg l h
      have hpos : 0 < weightSum l := lt_of_le_of_ne h0 (Ne.symm hw)
      have h1 := signalScore_le_weightSum l h
      have h2 := neg_weightSum_le_signalScore l h
      rw [normalizedScore, if_neg hw]
      constructor
      · rw [div_mul_eq_mul_div, le_div_iff₀ hpos]
        linarith
      · rw [div_mul_eq_mul_div, div_le_iff₀ hpos]
        linarith
  · intro he
    subst he
    rw [normalizedScore]
    norm_num [weightSum]
  · intro hw
    rw [normalizedScore, if_pos hw]

/-- Witness for C9 on a one-signal bullish list of weight 2. -/
theorem claim9_witness :
    -10 ≤ normalizedScore [⟨"Bullish", 2⟩] ∧ normalizedScore [⟨"Bullish", 2⟩] ≤ 10 :=
  (claim9_normalized_score [⟨"Bullish", 2⟩] (by decide)).1

lemma round_mono_rat {x y : ℚ} (h : x ≤ y) : round x ≤ round y := by
  rw [round_eq, round_eq]
  exact Int.floor_mono (by linarith)

lemma roundTo1_mono {x y : ℚ} (h : x ≤ y) : roundTo1 x ≤ roundTo1 y := by
  unfold roundTo1
  have h1 : round (x * 10) ≤ round (y * 10) := round_mono_rat (by linarith)
  have h2 : ((round (x * 10) : ℤ) : ℚ) ≤ ((round (y * 10) : ℤ) : ℚ) := by exact_mod_cast h1
  linarith

lemma roundTo1_bounds {x lo hi : ℚ} (hl : lo ≤ x) (hh : x ≤ hi)
    (hlo : roundTo1 lo = lo) (hhi : roundTo1 hi = hi) :
    lo ≤ roundTo1 x ∧ roundTo1 x ≤ hi := by
  constructor
  · calc lo = roundTo1 lo := hlo.symm
      _ ≤ roundTo1 x := roundTo1_mono hl
  · calc roundTo1 x ≤ roundTo1 hi := roundTo1_mono hh
      _ = hi := hhi

lemma clamp_bounds (x lo hi : ℚ) (hlh : lo ≤ hi) :
    lo ≤ min (max x lo) hi ∧ min (max x lo) hi ≤ hi :=
  ⟨le_min (le_max_right _ _) hlh, min_le_right _ _⟩

/-- C1 (corrected): the downside clamp to `[2,50]` (equities) / `[5,90]`
(crypto) happens before the risk-tolerance multiplier, so the claimed bounds
hold for moderate risk tolerance, while across all risk tolerances the
returned downside (both before and after `round(.,1)`) only lies in
`[1.6, 60]` for equities and `[3.5, 117]` for crypto. -/
theorem claim1_downside_clamped_before_risk (c v : ℚ) (r : RiskTol) :
    (r = .moderate →
        2 ≤ potentialDownsideEq c v r ∧ potentialDownsideEq c v r ≤ 50 ∧
        2 ≤ roundTo1 (potentialDownsideEq c v r) ∧
        roundTo1 (potentialDownsideEq c v r) ≤ 50) ∧
    (8/5 ≤ potentialDownsideEq c v r ∧ potentialDownsideEq c v r ≤ 60 ∧
        8/5 ≤ roundTo1 (potentialDownsideEq c v r) ∧
        roundTo1 (potentialDownsideEq c v r) ≤ 60) ∧
    (r = .moderate →
        5 ≤ potentialDownsideCrypto c v r ∧ potentialDownsideCrypto c v r ≤ 90 ∧
        5 ≤ roundTo1 (potentialDownsideCrypto c v r) ∧
        roundTo1 (potentialDownsideCrypto c v r) ≤ 90) ∧
    (7/2 ≤ potentialDownsideCrypto c v r ∧ potentialDownsideCrypto c v r ≤ 117 ∧
        7/2 ≤ roundTo1 (potentialDownsideCrypto c v r) ∧
        roundTo1 (potentialDownsideCrypto c v r) ≤ 117) := by
  obtain ⟨heq2, heq50⟩ := clamp_bounds (rawDownsideEq c v * 100) 2 50 (by norm_num)
  obtain ⟨hcr5, hcr90⟩ := clamp_bounds (rawDownsideCrypto c v * 100) 5 90 (by norm_num)
  have r2 : roundTo1 (2 : ℚ) = 2 := by unfold roundTo1; norm_num [round_eq]
  have r50 : roundTo1 (50 : ℚ) = 50 := by unfold roundTo1; norm_num [round_eq]
  have r85 : roundTo1 (8/5 : ℚ) = 8/5 := by unfold roundTo1; norm_num [round_eq]
  have r60 : roundTo1 (60 : ℚ) = 60 := by unfold roundTo1; norm_num [round_eq]
  have r5 : roundTo1 (5 : ℚ) = 5 := by unfold roundTo1; norm_num [round_eq]
  have r90 : roundTo1 (90 : ℚ) = 90 := by unfold roundTo1; norm_num [round_eq]
  have r72 : roundTo1 (7/2 : ℚ) = 7/2 := by unfold roundTo1; norm_num [round_eq]
  have r117 : roundTo1 (117 : ℚ) = 117 := by unfold roundTo1; norm_num [round_eq]
  cases r
  case moderate =>
    simp only [potentialDownsideEq, potentialDownsideCrypto]
    have hre := roundTo1_bounds heq2 heq50 r2 r50
    have hrc := roundTo1_bounds hcr5 hcr90 r5 r90
    refine ⟨fun _ => ⟨heq2, heq50, hre.1, hre.2⟩, ⟨by linarith, by linarith, ?_, ?_⟩,
      fun _ => ⟨hcr5, hcr90, hrc.1, hrc.2⟩, ⟨by linarith, by linarith, ?_, ?_⟩⟩
    · exact (roundTo1_bounds (by linarith) (by linarith) r85 r60).1
    · exact (roundTo1_bounds (by linarith) (by linarith) r85 r60).2
    · exact (roundTo1_bounds (by linarith) (by linarith) r72 r117).1
    · exact (roundTo1_bounds (by linarith) (by linarith) r72 r117).2
  case low =>
    simp only [potentialDownsideEq, potentialDownsideCrypto]
    refine ⟨fun hr => by exact absurd hr (by decide), ⟨by linarith, by linarith, ?_, ?_⟩,
      fun hr => by exact absurd hr (by decide), ⟨by linarith, by linarith, ?_, ?_⟩⟩
    · exact (roundTo1_bounds (by linarith) (by linarith) r85 r60).1
    · exact (roundTo1_bounds (by linarith) (by linarith) r85 r60).2
    · exact (roundTo1_bounds (by linarith) (by linarith) r72 r117).1
    · exact (roundTo1_bounds (by linarith) (by linarith) r72 r117).2
  case high =>
    simp only [potentialDownsideEq, potentialDownsideCrypto]
    refine ⟨fun hr => by exact absurd hr (by decide), ⟨by linarith, by linarith, ?_, ?_⟩,
      fun hr => by exact absurd hr (by decide), ⟨by linarith, by linarith, ?_, ?_⟩⟩
    · exact (roundTo1_bounds (by linarith) (by linarith) r85 r60).1
    · exact (roundTo1_bounds (by linarith) (by linarith) r85 r60).2
    · exact (roundTo1_bounds (by linarith) (by linarith) r72 r117).1
    · exact (roundTo1_bounds (by linarith) (by linarith) r72 r117).2

/-- C1 counterexample: at combined score 10, volatility 0.5 and low risk
tolerance, the equity downside is clamped to 50 and then multiplied by 1.2,
so `generate_investment_advice` returns `potential_downside = 60 ∉ [2,50]`. -/
theorem claim1_counterexample :
    potentialDownsideEq 10 (1/2) RiskTol.low = 60 ∧
    roundTo1 (potentialDownsideEq 10 (1/2) RiskTol.low) = 60 ∧
    ¬ potentialDownsideEq 10 (1/2) RiskTol.low ≤ 50 := by
  have hvf : volatilityFactorEq (1/2) = 1/2 := by
    unfold volatilityFactorEq
    rw [max_eq_left (by norm_num), min_eq_left (by norm_num)]
  have hraw : rawDownsideEq 10 (1/2) = 9/10 := by
    unfold rawDownsideEq
    rw [hvf]
    norm_num
  have h : potentialDownsideEq 10 (1/2) RiskTol.low = 60 := by
    simp only [potentialDownsideEq, hraw]
    rw [max_eq_left (by norm_num), min_eq_right (by norm_num)]
    norm_num
  have h2 : roundTo1 (60 : ℚ) = 60 := by unfold roundTo1; norm_num [round_eq]
  refine ⟨h, by rw [h]; exact h2, by rw [h]; norm_num⟩

/-- Witness for C1 at moderate risk tolerance. -/
theorem claim1_witness :
    2 ≤ potentialDownsideEq 0 0 RiskTol.moderate ∧
    potentialDownsideEq 0 0 RiskTol.moderate ≤ 50 := by
  have h := (claim1_downside_clamped_before_risk 0 0 RiskTol.moderate).1 rfl
  exact ⟨h.1, h.2.1⟩

lemma abs_combinedScoreEq_le {tn fn : ℚ} (r : RiskTol)
    (htn : |tn| ≤ 10) (hfn : |fn| ≤ 10) : |combinedScoreEq tn fn r| ≤ 10 := by
  obtain ⟨htn1, htn2⟩ := abs_le.mp htn
  obtain ⟨hfn1, hfn2⟩ := abs_le.mp hfn
  rw [abs_le]
  cases r <;> simp only [combinedScoreEq, equityWeights] <;> constructor <;> linarith

lemma marketAdj_bounds (t : ℚ) : -2 ≤ marketAdj t ∧ marketAdj t ≤ 2 := by
  unfold marketAdj
  split_ifs <;> norm_num

lemma btcCompAdj_bounds (op : Option Bool) : -(1/2) ≤ btcCompAdj op ∧ btcCompAdj op ≤ 1 := by
  rcases op with _ | b
  · norm_num [btcCompAdj]
  · cases b <;> norm_num [btcCompAdj]

lemma volAdj_bounds (r : RiskTol) (v : ℚ) : -2 ≤ volAdj r v ∧ volAdj r v ≤ 1 := by
  unfold volAdj
  split_ifs <;> norm_num

lemma techPart_bounds {tn : ℚ} (r : RiskTol) (htn : |tn| ≤ 10) :
    -10 ≤ tn * cryptoTechWeight r ∧ tn * cryptoTechWeight r ≤ 10 := by
  obtain ⟨h1, h2⟩ := abs_le.mp htn
  cases r <;> simp only [cryptoTechWeight] <;> constructor <;> nlinarith

lemma abs_combinedScoreCrypto_le {tn : ℚ} (r : RiskTol) (bt : Option ℚ)
    (op : Option Bool) (vol : ℚ) (htn : |tn| ≤ 10) :
    |combinedScoreCrypto tn r bt op vol| ≤ 29/2 := by
  obtain ⟨ht1, ht2⟩ := techPart_bounds r htn
  obtain ⟨hv1, hv2⟩ := volAdj_bounds r vol
  rw [abs_le]
  rcases bt with _ | t
  · simp only [combinedScoreCrypto]
    constructor <;> linarith
  · obtain ⟨hm1, hm2⟩ := marketAdj_bounds t
    obtain ⟨hb1, hb2⟩ := btcCompAdj_bounds op
    simp only [combinedScoreCrypto]
    constructor <;> linarith

lemma confidenceScore_nonneg (c : ℚ) : 0 ≤ confidenceScore c := by
  unfold confidenceScore
  have h0 : (0:ℚ) ≤ |c| / 10 * 100 := by positivity
  calc (0:ℤ) = round (0:ℚ) := by norm_num
    _ ≤ round (|c| / 10 * 100) := round_mono_rat h0

/-- C3 (corrected): `confidence_score` always equals
`round(|combined_score| / 10 * 100)`; for the equity scorer the combined
score is a convex blend of two scores in `[-10, 10]`, so the confidence lies
in `[0, 100]`; for the crypto scorer the market/BTC/volatility adjustments
can push the combined score beyond `±10`, and the confidence is only bounded
by `[0, 145]`. -/
theorem claim3_confidence_formula_and_range (tn fn vol : ℚ) (r : RiskTol)
    (bt : Option ℚ) (op : Option Bool) (htn : |tn| ≤ 10) (hfn : |fn| ≤ 10) :
    confidenceScore (combinedScoreEq tn fn r) =
      round (|combinedScoreEq tn fn r| / 10 * 100) ∧
    (0 ≤ confidenceScore (combinedScoreEq tn fn r) ∧
      confidenceScore (combinedScoreEq tn fn r) ≤ 100) ∧
    (0 ≤ confidenceScore (combinedScoreCrypto tn r bt op vol) ∧
      confidenceScore (combinedScoreCrypto tn r bt op vol) ≤ 145) := by
  refine ⟨rfl, ⟨confidenceScore_nonneg _, ?_⟩, ⟨confidenceScore_nonneg _, ?_⟩⟩
  · have habs := abs_combinedScoreEq_le r htn hfn
    have heq : |combinedScoreEq tn fn r| / 10 * 100 = |combinedScoreEq tn fn r| * 10 := by
      ring
    have hle : |combinedScoreEq tn fn r| / 10 * 100 ≤ 100 := by
      rw [heq]
      linarith
    calc confidenceScore (combinedScoreEq tn fn r)
        ≤ round (100 : ℚ) := round_mono_rat hle
      _ = 100 := by norm_num
  · have habs := abs_combinedScoreCrypto_le r bt op vol htn
    have heq : |combinedScoreCrypto tn r bt op vol| / 10 * 100 =
        |combinedScoreCrypto tn r bt op vol| * 10 := by
      ring
    have hle : |combinedScoreCrypto tn r bt op vol| / 10 * 100 ≤ 145 := by
      rw [heq]
      linarith
    calc confidenceScore (combinedScoreCrypto tn r bt op vol)
        ≤ round (145 : ℚ) := round_mono_rat hle
      _ = 145 := by norm_num

/-- C3 counterexample: with a fully bullish technical score (10), high risk
tolerance (technical weight 1.0), a strong BTC uptrend (+2), outperforming
BTC (+1) and volatility above 70% (+1), the crypto combined score is 14 and
the reported `confidence_score` is 140, outside `[0, 100]`. -/
theorem claim3_counterexample :
    confidenceScore (combinedScoreCrypto 10 RiskTol.high (some 6) (some true) 80) = 140 ∧
    ¬ confidenceScore (combinedScoreCrypto 10 RiskTol.high (some 6) (some true) 80) ≤ 100 := by
  have hm : marketAdj 6 = 2 := by
    unfold marketAdj
    rw [if_pos (by norm_num)]
  have hv : volAdj RiskTol.high 80 = 1 := by
    unfold volAdj
    rw [if_neg (by decide), if_pos (by decide)]
  have hc : combinedScoreCrypto 10 RiskTol.high (some 6) (some true) 80 = 14 := by
    simp only [combinedScoreCrypto, cryptoTechWeight, btcCompAdj, hm, hv]
    norm_num
  have h1 : confidenceScore (14 : ℚ) = 140 := by
    unfold confidenceScore
    rw [show |(14:ℚ)| = 14 from by norm_num]
    norm_num [round_eq]
  refine ⟨by rw [hc]; exact h1, by rw [hc, h1]; norm_num⟩

/-- Witness for C3 at zero scores and moderate risk tolerance. -/
theorem claim3_witness :
    0 ≤ confidenceScore (combinedScoreEq 0 0 RiskTol.moderate) ∧
    confidenceScore (combinedScoreEq 0 0 RiskTol.moderate) ≤ 100 :=
  (claim3_confidence_formula_and_range 0 0 0 RiskTol.moderate none none
    (by norm_num) (by norm_num)).2.1

lemma rsiGain_nonneg (prices : List ℚ) (w i : ℕ) : 0 ≤ rsiGain prices w i := by
  unfold rsiGain
  apply div_nonneg
  · apply Finset.sum_nonneg
    intro k _
    exact le_max_right _ _
  · exact_mod_cast Nat.zero_le w

lemma rsiLoss_nonneg (prices : List ℚ) (w i : ℕ) : 0 ≤ rsiLoss prices w i := by
  unfold rsiLoss
  apply div_nonneg
  · apply Finset.sum_nonneg
    intro k _
    exact le_max_right _ _
  · exact_mod_cast Nat.zero_le w

/-- C7 (corrected): past the warm-up region, whenever the window is not
completely flat (`gain` and `loss` not both zero) the RSI is defined and lies
in `[0, 100]`, and it equals exactly 100 when all trailing deltas are
non-negative with at least one positive (the `loss = 0` division resolves to
`100` rather than an error).  The all-zero-delta window, excluded here, is
settled by the counterexample: there the RSI is NaN even past warm-up. -/
theorem claim7_rsi_bounds (prices : List ℚ) (w i : ℕ) (hw : 0 < w) (hwi : w ≤ i)
    (hi : i < prices.length) :
    (¬ (rsiGain prices w i = 0 ∧ rsiLoss prices w i = 0) →
        ∃ v, rsiAt prices w i = some v ∧ 0 ≤ v ∧ v ≤ 100) ∧
    ((∀ k ∈ Finset.range w, 0 ≤ priceDelta prices (i - k)) ∧
        (∃ k ∈ Finset.range w, 0 < priceDelta prices (i - k)) →
      rsiAt prices w i = some 100) := by
  have hrange : ¬ (i < w ∨ prices.length ≤ i) := by omega
  have hg0 := rsiGain_nonneg prices w i
  have hl0 := rsiLoss_nonneg prices w i
  constructor
  · intro hne
    unfold rsiAt
    rw [if_neg hrange]
    by_cases hl : rsiLoss prices w i = 0
    · have hgne : rsiGain prices w i ≠ 0 := fun hgg => hne ⟨hgg, hl⟩
      rw [if_neg (not_not_intro hl), if_pos hgne]
      exact ⟨100, rfl, by norm_num, le_refl 100⟩
    · rw [if_pos hl]
      have hlpos : 0 < rsiLoss prices w i := lt_of_le_of_ne hl0 (Ne.symm hl)
      have hgl : 0 ≤ rsiGain prices w i / rsiLoss prices w i := div_nonneg hg0 hlpos.le
      refine ⟨_, rfl, ?_, ?_⟩
      · have hds : (100:ℚ) / (1 + rsiGain prices w i / rsiLoss prices w i) ≤ 100 :=
          div_le_self (by norm_num) (by linarith)
        linarith
      · have hpos : 0 < (100:ℚ) / (1 + rsiGain prices w i / rsiLoss prices w i) :=
          div_pos (by norm_num) (by linarith)
        linarith
  · rintro ⟨hall, k, hk, hkpos⟩
    have hl : rsiLoss prices w i = 0 := by
      unfold rsiLoss
      rw [Finset.sum_eq_zero, zero_div]
      intro j hj
      have hd := hall j hj
      rw [max_eq_right (by linarith)]
    have hgpos : 0 < rsiGain prices w i := by
      unfold rsiGain
      apply div_pos
      · apply Finset.sum_pos'
        · intro j _
          exact le_max_right _ _
        · exact ⟨k, hk, lt_of_lt_of_le hkpos (le_max_left _ _)⟩
      · exact_mod_cast hw
    unfold rsiAt
    rw [if_neg hrange, if_neg (not_not_intro hl), if_pos (ne_of_gt hgpos)]

/-- C7 counterexample: on a completely flat series (15 equal closes, window
14, index 14 — past warm-up and in range) both `gain` and `loss` are 0, so
`rs = 0/0 = NaN` and the RSI is undefined past warm-up, refuting the claim
that every post-warm-up RSI value lies in `[0, 100]`. -/
theorem claim7_counterexample :
    rsiAt (List.replicate 15 (100:ℚ)) 14 14 = none ∧
    ¬ (14 < 14 ∨ (List.replicate 15 (100:ℚ)).length ≤ 14) := by
  have hdelta : ∀ k : ℕ, k < 14 → priceDelta (List.replicate 15 (100:ℚ)) (14 - k) = 0 := by
    intro k hk
    unfold priceDelta
    have h1 : 14 - k < 15 := by omega
    have h2 : 14 - k - 1 < 15 := by omega
    rw [List.getD_eq_getElem?_getD, List.getElem?_replicate, if_pos h1,
      List.getD_eq_getElem?_getD, List.getElem?_replicate, if_pos h2]
    norm_num
  have hg : rsiGain (List.replicate 15 (100:ℚ)) 14 14 = 0 := by
    unfold rsiGain
    rw [Finset.sum_eq_zero, zero_div]
    intro k hk
    rw [hdelta k (Finset.mem_range.mp hk)]
    exact max_self 0
  have hl : rsiLoss (List.replicate 15 (100:ℚ)) 14 14 = 0 := by
    unfold rsiLoss
    rw [Finset.sum_eq_zero, zero_div]
    intro k hk
    rw [hdelta k (Finset.mem_range.mp hk)]
    rw [neg_zero]
    exact max_self 0
  have hrange : ¬ ((14:ℕ) < 14 ∨ (List.replicate 15 (100:ℚ)).length ≤ 14) := by
    rw [List.length_replicate]
    omega
  refine ⟨?_, hrange⟩
  unfold rsiAt
  rw [if_neg hrange, if_neg (not_not_intro hl), if_neg (not_not_intro hg)]

/-- Witness for C7: a strictly rising series has RSI exactly 100 past
warm-up. -/
theorem claim7_witness :
    rsiAt [0, 1] 1 1 = some 100 :=
  (claim7_rsi_bounds [0, 1] 1 1 (by norm_num) (by norm_num) (by norm_num)).2
    ⟨by
        intro k hk
        rw [Finset.mem_range] at hk
        interval_cases k
        norm_num [priceDelta],
      ⟨0, Finset.mem_range.mpr (by norm_num), by norm_num [priceDelta]⟩⟩

/-- C5: with three available sources whose labels come from the actual label
alphabets of the providers, (i) three "Buy"-containing labels give
"Strong consensus to Buy" with agreement level "High"; (ii) exactly two
"Buy"-containing labels that outnumber the "Sell"-containing ones give
"Moderate consensus to Buy" with agreement level "Moderate"; (iii) when
neither direction has at least two agreeing sources outnumbering the
opposite, the label is "Mixed signals across sources". -/
theorem claim5_consensus (a b c : String) (ha : a ∈ labelAlphabet)
    (hb : b ∈ labelAlphabet) (hc : c ∈ labelAlphabet) :
    (containsBuy a = true ∧ containsBuy b = true ∧ containsBuy c = true →
        consensusLabel [a, b, c] = "Strong consensus to Buy" ∧
        agreementLevel [a, b, c] = "High") ∧
    (buyCount [a, b, c] = 2 ∧ sellCount [a, b, c] < buyCount [a, b, c] →
        consensusLabel [a, b, c] = "Moderate consensus to Buy" ∧
        agreementLevel [a, b, c] = "Moderate") ∧
    (¬ (2 ≤ buyCount [a, b, c] ∧ sellCount [a, b, c] < buyCount [a, b, c]) ∧
        ¬ (2 ≤ sellCount [a, b, c] ∧ buyCount [a, b, c] < sellCount [a, b, c]) →
        consensusLabel [a, b, c] = "Mixed signals across sources") := by
  simp only [labelAlphabet, List.mem_cons, List.not_mem_nil, or_false] at ha hb hc
  rcases ha with rfl | rfl | rfl | rfl | rfl | rfl | rfl | rfl <;>
    rcases hb with rfl | rfl | rfl | rfl | rfl | rfl | rfl | rfl <;>
    rcases hc with rfl | rfl | rfl | rfl | rfl | rfl | rfl | rfl <;>
    decide

/-- Witness for C5: three unanimous Buy-family labels. -/
theorem claim5_witness :
    consensusLabel ["Strong Buy", "Buy", "Mild Buy"] = "Strong consensus to Buy" ∧
    agreementLevel ["Strong Buy", "Buy", "Mild Buy"] = "High" :=
  (claim5_consensus "Strong Buy" "Buy" "Mild Buy"
      (by decide) (by decide) (by decide)).1 ⟨by decide, by decide, by decide⟩

/-- C6: when CoinMarketCap and TradingView both fail the dict-without-error
test and the Yahoo-style advice is not a dict, `get_buy_sell_recommendation`
returns the tagged error object whose message ends with "from any source",
and no recommendation object built from any provider. -/
theorem claim6_all_sources_fail (symbol : String) (cmc tv yf : ProviderOutcome)
    (hc : cmc ≠ .dictOk) (ht : tv ≠ .dictOk) (hy : yf = .nonDict) :
    getBuySellRecommendation symbol cmc tv yf =
      .errorResult
        ("Unable to generate buy/sell recommendation for " ++ symbol ++ " from any source") ∧
    (∃ p : List Char,
        ("Unable to generate buy/sell recommendation for " ++ symbol ++ " from any source").data
          = p ++ "from any source".data) ∧
    getBuySellRecommendation symbol cmc tv yf ≠ .fromCMC ∧
    getBuySellRecommendation symbol cmc tv yf ≠ .fromTradingView ∧
    getBuySellRecommendation symbol cmc tv yf ≠ .fromYahoo := by
  subst hy
  have hresult : getBuySellRecommendation symbol cmc tv .nonDict =
      .errorResult
        ("Unable to generate buy/sell recommendation for " ++ symbol ++ " from any source") := by
    unfold getBuySellRecommendation
    rw [if_neg hc, if_neg ht, if_neg (by decide)]
  refine ⟨hresult, ?_, ?_, ?_, ?_⟩
  · refine ⟨"Unable to generate buy/sell recommendation for ".data ++ symbol.data
      ++ " ".data, ?_⟩
    have hsplit : (" from any source" : String).data = " ".data ++ "from any source".data := by
      decide
    simp [String.data_append, hsplit, List.append_assoc]
  · rw [hresult]
    exact fun h => BuySellResult.noConfusion h
  · rw [hresult]
    exact fun h => BuySellResult.noConfusion h
  · rw [hresult]
    exact fun h => BuySellResult.noConfusion h

/-- Witness for C6: the symbol "ZZZ" with a CoinMarketCap error dict and
non-dict results from the other two providers. -/
theorem claim6_witness :
    getBuySellRecommendation "ZZZ" .dictErr .nonDict .nonDict =
      .errorResult "Unable to generate buy/sell recommendation for ZZZ from any source" := by
  have h := (claim6_all_sources_fail "ZZZ" .dictErr .nonDict .nonDict
    (by decide) (by decide) rfl).1
  rw [h]
  decide

/-- C4 (code bug): on a mixed success/failure comparison, the per-symbol loop
records the inline error note for the failed symbol into the pre-rebinding
`results` dict, but the value `compare_cryptos` returns — `results` rebound
to the aggregate dict — carries only the successful symbol and no error note
for the failed one in any of its fields. -/
theorem claim4_error_notes_discarded :
    (compareLoop 50 mixedCompareInputs).1 =
      [("FAKE-USD", "Error analyzing FAKE-USD: no data")] ∧
    (compareCryptos "1y" 50 mixedCompareInputs).performanceData.map Prod.fst = ["BTC-USD"] ∧
    (compareCryptos "1y" 50 mixedCompareInputs).volatilityData.map Prod.fst = ["BTC-USD"] ∧
    (compareCryptos "1y" 50 mixedCompareInputs).indicatorData.map Prod.fst = ["BTC-USD"] ∧
    (compareCryptos "1y" 50 mixedCompareInputs).performanceRanking = ["BTC-USD"] ∧
    (compareCryptos "1y" 50 mixedCompareInputs).volatilityRanking = ["BTC-USD"] ∧
    "FAKE-USD" ∉ (compareCryptos "1y" 50 mixedCompareInputs).performanceData.map Prod.fst ∧
    "FAKE-USD" ∉ (compareCryptos "1y" 50 mixedCompareInputs).performanceRanking := by
  refine ⟨?_, ?_, ?_, ?_, ?_, ?_, ?_, ?_⟩ <;>
    simp [compareCryptos, compareLoop, mixedCompareInputs, btcSnapshot, sortBy, insertBy]

/-- C2 (code bug): the `price_vs_ma` ternary yields "Above"/"Below" when the
moving average is defined, but with an undefined moving average the
comparison `current_price > None` raises `TypeError` — the whole analysis
degenerates to an error string and `"Unknown"` is never produced. -/
theorem claim2_ma_comparison_raises :
    priceVsMA 100 (some 90) = .ok "Above" ∧
    priceVsMA 100 (some 110) = .ok "Below" ∧
    (∀ cp : ℚ, priceVsMA cp none ≠ .ok "Unknown") ∧
    insightsMAFields "AAPL" 100 (some 90) none =
      .error ("Error performing comprehensive analysis for AAPL: TypeError: unsupported comparison between float and NoneType") ∧
    (∀ v, insightsMAFields "AAPL" 100 (some 90) none ≠ .ok v) := by
  have h3 : insightsMAFields "AAPL" 100 (some 90) none =
      .error ("Error performing comprehensive analysis for AAPL: TypeError: unsupported comparison between float and NoneType") := by
    rfl
  refine ⟨rfl, rfl, ?_, h3, ?_⟩
  · intro cp h
    exact Except.noConfusion h
  · intro v hv
    rw [h3] at hv
    exact Except.noConfusion hv
